import Mathlib

/-!
Verification of the multi-tenant legal-practice SaaS backend.

This file gives a shallow embedding, in Lean 4, of the server-side code that
the specification describes: the per-request schema substitution
(src/server/config/database.ts, BaseService.query), the authentication
middleware and AuthService (src/server/middleware/auth.ts), the BaseService
permission / audit / notification helpers, the PublicationService and
CashFlowService (per-tenant SQL over the tenant schema, interpreted as
relational operations over explicit table states), and the cashflow Express
router.  SQL queries are interpreted by their evident relational meaning on
explicit list-of-row states; NOW() values, freshly generated UUIDs and the
tokens produced by jwt.sign are passed as explicit parameters; bcrypt is
modelled by an abstract hash function passed as a parameter.
-/

/-! ## Schema substitution (database.ts getTenantConnection, BaseService.query) -/

/-- Global string replacement, as performed by the JavaScript
`sql.replace(/\$\{schema\}/g, schema)`: scan left to right, and at each
position where `pat` occurs, emit `repl` and continue after the occurrence.
The fuel argument makes the recursion structural; `fuel = l.length` always
suffices because each step consumes at least one character. -/
def replaceAllFuel (pat repl : List Char) : Nat → List Char → List Char
  | 0, l => l
  | _ + 1, [] => []
  | fuel + 1, c :: cs =>
      if pat.isPrefixOf (c :: cs) then
        repl ++ replaceAllFuel pat repl fuel (cs.drop (pat.length - 1))
      else
        c :: replaceAllFuel pat repl fuel cs

def replaceAll (pat repl : List Char) (l : List Char) : List Char :=
  replaceAllFuel pat repl l.length l

/-- The placeholder that the raw SQL strings in the services contain. -/
def schemaPlaceholder : List Char := "${schema}".toList

/-- Model of the JavaScript string method used in both query helpers:
`sql.replace(/\$\{schema\}/g, schema)`. -/
def substSchema (schema sql : String) : String :=
  String.mk (replaceAll schemaPlaceholder schema.toList sql.toList)

/-- Model of the JavaScript tenantId.replace with the global dash regex:
remove every dash character. -/
def stripDashes (s : String) : String :=
  String.mk (s.toList.filter (fun c => c != '-'))

/-- database.ts line 41: the schema constant, "tenant_" followed by the
tenant id with its dashes removed. -/
def tenantConnectionSchema (tenantId : String) : String :=
  "tenant_" ++ stripDashes tenantId

/-- The SQL text that getTenantConnection(tenantId).query sends to the
exec_sql RPC for a given raw sql string (database.ts lines 46-51). -/
def tenantConnectionQuerySql (tenantId sql : String) : String :=
  substSchema (tenantConnectionSchema tenantId) sql

/-- The authenticated user attached to a request by the auth middleware
(auth.ts, interface AuthenticatedUser).  accountType is kept as the raw
string carried at runtime ("simples" | "composta" | "gerencial"). -/
structure AuthenticatedUser where
  id : String
  tenantId : String
  email : String
  name : String
  accountType : String
deriving DecidableEq

/-- BaseService constructor, line 12: tenantSchema of the service instance. -/
def BaseService.tenantSchema (u : AuthenticatedUser) : String :=
  "tenant_" ++ stripDashes u.tenantId

/-- The SQL text that BaseService.query sends to the exec_sql RPC
(part_012 lines 15-23). -/
def BaseService.querySql (u : AuthenticatedUser) (sql : String) : String :=
  substSchema (BaseService.tenantSchema u) sql

/-- Canonical textual form of a UUID: five dash-separated groups of
8, 4, 4, 4 and 12 non-dash characters.  Tenant ids come from a PostgreSQL
uuid column, so every tenant id the middleware ever attaches to a request
has this shape. -/
def isCanonicalUuid (s : String) : Prop :=
  ∃ g1 g2 g3 g4 g5 : List Char,
    g1.length = 8 ∧ g2.length = 4 ∧ g3.length = 4 ∧ g4.length = 4 ∧ g5.length = 12 ∧
    (∀ c ∈ g1, c ≠ '-') ∧ (∀ c ∈ g2, c ≠ '-') ∧ (∀ c ∈ g3, c ≠ '-') ∧
    (∀ c ∈ g4, c ≠ '-') ∧ (∀ c ∈ g5, c ≠ '-') ∧
    s.data = g1 ++ '-' :: (g2 ++ '-' :: (g3 ++ '-' :: (g4 ++ '-' :: g5)))

/-! ### Lemmas about replaceAll -/

theorem replaceAllFuel_nil (pat repl : List Char) (fuel : Nat) :
    replaceAllFuel pat repl fuel [] = [] := by
  cases fuel <;> rfl

theorem replaceAllFuel_fuel_irrel (pat repl : List Char) :
    ∀ f1 f2 l, l.length ≤ f1 → l.length ≤ f2 →
      replaceAllFuel pat repl f1 l = replaceAllFuel pat repl f2 l := by
  intro f1
  induction f1 with
  | zero =>
      intro f2 l h1 _
      have : l = [] := List.eq_nil_of_length_eq_zero (Nat.le_zero.mp h1)
      subst this
      simp [replaceAllFuel_nil]
  | succ f ih =>
      intro f2 l h1 h2
      cases l with
      | nil => simp [replaceAllFuel_nil]
      | cons c cs =>
          cases f2 with
          | zero => simp at h2
          | succ g =>
              simp only [replaceAllFuel]
              by_cases hp : pat.isPrefixOf (c :: cs) = true
              · simp only [hp, if_true]
                congr 1
                apply ih
                · calc (cs.drop (pat.length - 1)).length ≤ cs.length := by
                        simp [List.length_drop]
                       _ ≤ f := Nat.le_of_succ_le_succ h1
                · calc (cs.drop (pat.length - 1)).length ≤ cs.length := by
                        simp [List.length_drop]
                       _ ≤ g := Nat.le_of_succ_le_succ h2
              · rw [if_neg hp, if_neg hp]
                congr 1
                exact ih g cs (Nat.le_of_succ_le_succ h1) (Nat.le_of_succ_le_succ h2)

theorem replaceAll_cons (pat repl : List Char) (c : Char) (cs : List Char) :
    replaceAll pat repl (c :: cs) =
      if pat.isPrefixOf (c :: cs) then
        repl ++ replaceAll pat repl (cs.drop (pat.length - 1))
      else c :: replaceAll pat repl cs := by
  show replaceAllFuel pat repl (cs.length + 1) (c :: cs) = _
  simp only [replaceAllFuel]
  by_cases hp : pat.isPrefixOf (c :: cs) = true
  · rw [if_pos hp, if_pos hp]
    congr 1
    exact replaceAllFuel_fuel_irrel _ _ _ _ _
      (by simp [List.length_drop]) (Nat.le_refl _)
  · rw [if_neg hp, if_neg hp]
    rfl

theorem replaceAll_match_head (pat repl rest : List Char) (hpat : pat ≠ []) :
    replaceAll pat repl (pat ++ rest) = repl ++ replaceAll pat repl rest := by
  cases pat with
  | nil => exact absurd rfl hpat
  | cons p ps =>
      rw [List.cons_append, replaceAll_cons]
      have hpre : (p :: ps).isPrefixOf (p :: (ps ++ rest)) = true := by
        simp [List.isPrefixOf_iff_prefix]
      rw [if_pos hpre]
      congr 1
      congr 1
      simp [List.drop_left]

theorem replaceAll_no_match_left (pat repl : List Char) :
    ∀ pre tail, (∀ i < pre.length, pat.isPrefixOf ((pre ++ tail).drop i) = false) →
      replaceAll pat repl (pre ++ tail) = pre ++ replaceAll pat repl tail := by
  intro pre
  induction pre with
  | nil => intro tail _; rfl
  | cons c pre' ih =>
      intro tail h
      have h0 : pat.isPrefixOf (c :: (pre' ++ tail)) = false := by
        have := h 0 (Nat.succ_pos _)
        simpa using this
      rw [List.cons_append, replaceAll_cons, if_neg (by simp [h0])]
      rw [ih tail (fun i hi => by
        have := h (i + 1) (Nat.succ_lt_succ hi)
        simpa using this)]
      simp

theorem string_mk_data (s : String) : String.mk s.data = s := by
  cases s
  rfl

/-! ### Injectivity of the tenant schema on canonical UUIDs -/

theorem filter_ne_dash_self (g : List Char) (h : ∀ c ∈ g, c ≠ '-') :
    g.filter (fun c => c != '-') = g := by
  apply List.filter_eq_self.mpr
  intro a ha
  simpa using h a ha

theorem stripDashes_canonical (s : String) (h : isCanonicalUuid s) :
    ∃ g1 g2 g3 g4 g5 : List Char,
      g1.length = 8 ∧ g2.length = 4 ∧ g3.length = 4 ∧ g4.length = 4 ∧ g5.length = 12 ∧
      s.data = g1 ++ '-' :: (g2 ++ '-' :: (g3 ++ '-' :: (g4 ++ '-' :: g5))) ∧
      (stripDashes s).data = g1 ++ (g2 ++ (g3 ++ (g4 ++ g5))) := by
  obtain ⟨g1, g2, g3, g4, g5, l1, l2, l3, l4, l5, n1, n2, n3, n4, n5, hs⟩ := h
  refine ⟨g1, g2, g3, g4, g5, l1, l2, l3, l4, l5, hs, ?_⟩
  show (s.data.filter _) = _
  rw [hs]
  simp only [List.filter_append, List.filter_cons]
  rw [filter_ne_dash_self g1 n1, filter_ne_dash_self g2 n2, filter_ne_dash_self g3 n3,
      filter_ne_dash_self g4 n4, filter_ne_dash_self g5 n5]
  simp

theorem stripDashes_inj_on_uuid (a b : String)
    (ha : isCanonicalUuid a) (hb : isCanonicalUuid b)
    (h : stripDashes a = stripDashes b) : a = b := by
  obtain ⟨g1, g2, g3, g4, g5, l1, l2, l3, l4, l5, hsa, hfa⟩ := stripDashes_canonical a ha
  obtain ⟨k1, k2, k3, k4, k5, m1, m2, m3, m4, m5, hsb, hfb⟩ := stripDashes_canonical b hb
  have hcat : g1 ++ (g2 ++ (g3 ++ (g4 ++ g5))) = k1 ++ (k2 ++ (k3 ++ (k4 ++ k5))) := by
    rw [← hfa, ← hfb, h]
  have hl1 : g1.length = k1.length := by rw [l1, m1]
  have e1 := List.append_inj hcat hl1
  have hl2 : g2.length = k2.length := by rw [l2, m2]
  have e2 := List.append_inj e1.2 hl2
  have hl3 : g3.length = k3.length := by rw [l3, m3]
  have e3 := List.append_inj e2.2 hl3
  have hl4 : g4.length = k4.length := by rw [l4, m4]
  have e4 := List.append_inj e3.2 hl4
  apply String.ext
  rw [hsa, hsb, e1.1, e2.1, e3.1, e4.1, e4.2]

theorem tenantSchema_inj_on_uuid (a b : String)
    (ha : isCanonicalUuid a) (hb : isCanonicalUuid b) (hne : a ≠ b) :
    "tenant_" ++ stripDashes a ≠ "tenant_" ++ stripDashes b := by
  intro h
  apply hne
  apply stripDashes_inj_on_uuid a b ha hb
  have hdata := congrArg String.data h
  simp only [String.data_append] at hdata
  exact String.ext (List.append_inj hdata rfl).2

/-! ### Claims C2 and C3 -/

/-- Claim C2: a SQL string issued through BaseService.query (and through
getTenantConnection(...).query) is substituted with the schema that is a
function of the authenticated tenant id alone, both code sites compute the
same schema for one tenant id, and two users whose (canonical UUID) tenant
ids differ always get distinct schema names, so their substituted queries
address distinct schemas. -/
theorem c2_tenant_schema_isolation (a b : AuthenticatedUser)
    (ha : isCanonicalUuid a.tenantId) (hb : isCanonicalUuid b.tenantId)
    (hne : a.tenantId ≠ b.tenantId) :
    (∀ sql, BaseService.querySql a sql
        = substSchema (tenantConnectionSchema a.tenantId) sql)
  ∧ BaseService.tenantSchema a = tenantConnectionSchema a.tenantId
  ∧ BaseService.tenantSchema a ≠ BaseService.tenantSchema b
  ∧ tenantConnectionSchema a.tenantId ≠ tenantConnectionSchema b.tenantId := by
  refine ⟨fun _ => rfl, rfl, ?_, ?_⟩
  · exact tenantSchema_inj_on_uuid _ _ ha hb hne
  · exact tenantSchema_inj_on_uuid _ _ ha hb hne

/-- Witness for C2 at two concrete users with distinct canonical tenant ids. -/
theorem c2_tenant_schema_isolation_witness :
    BaseService.tenantSchema
        { id := "u1", tenantId := "123e4567-e89b-12d3-a456-426614174000",
          email := "a@x.com", name := "A", accountType := "gerencial" }
      ≠ BaseService.tenantSchema
        { id := "u2", tenantId := "123e4567-e89b-12d3-a456-426614174001",
          email := "b@x.com", name := "B", accountType := "gerencial" } :=
  (c2_tenant_schema_isolation
    { id := "u1", tenantId := "123e4567-e89b-12d3-a456-426614174000",
      email := "a@x.com", name := "A", accountType := "gerencial" }
    { id := "u2", tenantId := "123e4567-e89b-12d3-a456-426614174001",
      email := "b@x.com", name := "B", accountType := "gerencial" }
    ⟨"123e4567".toList, "e89b".toList, "12d3".toList, "a456".toList,
      "426614174000".toList, by decide, by decide, by decide, by decide, by decide,
      by decide, by decide, by decide, by decide, by decide, by decide⟩
    ⟨"123e4567".toList, "e89b".toList, "12d3".toList, "a456".toList,
      "426614174001".toList, by decide, by decide, by decide, by decide, by decide,
      by decide, by decide, by decide, by decide, by decide, by decide⟩
    (by decide)).2.2.1

/-- Counterexample to Claim C3 as stated: the substitution does not rewrite
the placeholder to the prefix "tenant_" followed by the tenant UUID; it
strips the dashes from the UUID first.  At a concrete tenant id and a
concrete SQL string from PublicationService, the produced text differs from
the one the claim predicts. -/
theorem c3_counterexample :
    tenantConnectionQuerySql "123e4567-e89b-12d3-a456-426614174000"
        "SELECT * FROM ${schema}.publications WHERE user_id = $1"
      ≠ "SELECT * FROM tenant_123e4567-e89b-12d3-a456-426614174000.publications WHERE user_id = $1"
  ∧ tenantConnectionQuerySql "123e4567-e89b-12d3-a456-426614174000"
        "SELECT * FROM ${schema}.publications WHERE user_id = $1"
      = "SELECT * FROM tenant_123e4567e89b12d3a456426614174000.publications WHERE user_id = $1" := by
  constructor
  · decide
  · decide

/-- Claim C3 (amended): for every SQL string and tenant id, the substitution
rewrites every occurrence of the placeholder to "tenant_" followed by the
tenant id with its dashes removed, and leaves the rest of the SQL text
unchanged.  First conjunct: at an occurrence of the placeholder preceded by
placeholder-free text, the prefix is kept, the occurrence becomes the schema
name, and substitution continues on the remainder.  Second conjunct: a SQL
string with no occurrence at all is left unchanged. -/
theorem c3_schema_substitution (tid pre post : String)
    (hpre : ∀ i < pre.data.length,
      schemaPlaceholder.isPrefixOf ((pre.data ++ (schemaPlaceholder ++ post.data)).drop i) = false) :
    tenantConnectionQuerySql tid (pre ++ "${schema}" ++ post)
      = pre ++ ("tenant_" ++ stripDashes tid) ++ tenantConnectionQuerySql tid post
  ∧ (∀ s : String, (∀ i < s.data.length,
        schemaPlaceholder.isPrefixOf (s.data.drop i) = false) →
      tenantConnectionQuerySql tid s = s) := by
  constructor
  · show String.mk (replaceAll schemaPlaceholder (tenantConnectionSchema tid).toList
        (pre ++ "${schema}" ++ post).data) = _
    have hdata : (pre ++ "${schema}" ++ post).data
        = pre.data ++ (schemaPlaceholder ++ post.data) := by
      simp [String.data_append, schemaPlaceholder, String.toList]
    rw [hdata]
    rw [replaceAll_no_match_left _ _ _ _ hpre]
    rw [replaceAll_match_head _ _ _ (by decide)]
    apply String.ext
    show pre.data ++ ((tenantConnectionSchema tid).toList ++ _) = _
    simp [String.data_append, tenantConnectionSchema, tenantConnectionQuerySql,
      substSchema, String.toList, List.append_assoc]
  · intro s hs
    show String.mk (replaceAll schemaPlaceholder (tenantConnectionSchema tid).toList s.data) = s
    have : replaceAll schemaPlaceholder (tenantConnectionSchema tid).toList (s.data ++ []) =
        s.data ++ replaceAll schemaPlaceholder (tenantConnectionSchema tid).toList [] := by
      apply replaceAll_no_match_left
      intro i hi
      have := hs i hi
      simpa using this
    have hnil : replaceAll schemaPlaceholder (tenantConnectionSchema tid).toList [] = [] := rfl
    rw [hnil, List.append_nil] at this
    rw [this]

/-- Witness for C3 (amended) at a concrete tenant id and SQL text. -/
theorem c3_schema_substitution_witness :
    tenantConnectionQuerySql "123e4567-e89b-12d3-a456-426614174000"
        ("SELECT * FROM " ++ "${schema}" ++ ".publications WHERE user_id = $1")
      = "SELECT * FROM "
          ++ ("tenant_" ++ stripDashes "123e4567-e89b-12d3-a456-426614174000")
          ++ tenantConnectionQuerySql "123e4567-e89b-12d3-a456-426614174000"
              ".publications WHERE user_id = $1" :=
  (c3_schema_substitution "123e4567-e89b-12d3-a456-426614174000"
    "SELECT * FROM " ".publications WHERE user_id = $1" (by decide)).1

/-! ## Admin schema: users and refresh tokens (auth.ts) -/

/-- Row of admin.users (the fields the middleware and AuthService read). -/
structure AdminUser where
  id : String
  tenant_id : String
  email : String
  name : String
  account_type : String
  password_hash : String
  is_active : Bool
  last_login : Option Nat
deriving DecidableEq

/-- Row of admin.refresh_tokens. -/
structure RefreshTokenRow where
  id : String
  user_id : String
  token_hash : String
  is_active : Bool
  expires_at : Nat
deriving DecidableEq

/-- The admin schema state. -/
structure AdminDb where
  users : List AdminUser
  refresh_tokens : List RefreshTokenRow
deriving DecidableEq

/-- Outcome of jwt.verify on an access token: the decoded userId, or the
TokenExpiredError, or any other verification failure. -/
inductive VerifyOutcome
  | valid (userId : String)
  | expired
  | invalid
deriving DecidableEq

/-- What the middleware sends back, or the information it attaches to the
request before calling next(). -/
inductive AuthOutcome
  | respond (status : Nat) (error : String) (code : Option String)
  | proceed (user : AuthenticatedUser) (tenantId tenantSchema : String)
deriving DecidableEq

/-- JavaScript split on a single space: h.split(" "). -/
def splitOnSpace : List Char → List (List Char)
  | [] => [[]]
  | c :: cs =>
      if c = ' ' then [] :: splitOnSpace cs
      else
        match splitOnSpace cs with
        | [] => [[c]]
        | g :: gs => (c :: g) :: gs

/-- auth.ts lines 24-25: take authHeader.split(" ")[1]; the result counts as
missing when the header is absent, has no second space-separated part, or
that part is the empty string (all falsy in the JavaScript test). -/
def extractBearerToken (authHeader : Option String) : Option String :=
  match authHeader with
  | none => none
  | some h =>
      match (splitOnSpace h.toList)[1]? with
      | none => none
      | some t => if t = [] then none else some (String.mk t)

/-- authenticateToken middleware (auth.ts lines 23-67).  jwt.verify is
passed in as an abstract function from token text to outcome. -/
def authenticateToken (verify : String → VerifyOutcome) (users : List AdminUser)
    (authHeader : Option String) : AuthOutcome :=
  match extractBearerToken authHeader with
  | none => .respond 401 "Token de acesso necessário" none
  | some token =>
      match verify token with
      | .expired => .respond 401 "Token expirado" (some "TOKEN_EXPIRED")
      | .invalid => .respond 403 "Token inválido" none
      | .valid userId =>
          match users.filter (fun u => u.id == userId) with
          | [u] =>
              if u.is_active then
                .proceed
                  { id := u.id, tenantId := u.tenant_id, email := u.email,
                    name := u.name, accountType := u.account_type }
                  u.tenant_id ("tenant_" ++ stripDashes u.tenant_id)
              else .respond 401 "Usuário inativo ou não encontrado" none
          | _ => .respond 401 "Usuário inativo ou não encontrado" none

/-- Claim C6: authenticateToken responds 401 "Token de acesso necessário"
without a bearer token, 401 with code TOKEN_EXPIRED on an expired JWT,
403 "Token inválido" on any other verification failure, 401 "Usuário
inativo ou não encontrado" when the decoded user is missing or inactive,
and proceeds to the protected handler only for a valid token resolving to
an active user, attaching req.user, req.tenantId and req.tenantSchema from
the admin record. -/
theorem c6_authenticate_token (verify : String → VerifyOutcome)
    (users : List AdminUser) (authHeader : Option String) :
    (extractBearerToken authHeader = none →
      authenticateToken verify users authHeader
        = .respond 401 "Token de acesso necessário" none)
  ∧ (∀ t, extractBearerToken authHeader = some t → verify t = .expired →
      authenticateToken verify users authHeader
        = .respond 401 "Token expirado" (some "TOKEN_EXPIRED"))
  ∧ (∀ t, extractBearerToken authHeader = some t → verify t = .invalid →
      authenticateToken verify users authHeader
        = .respond 403 "Token inválido" none)
  ∧ (∀ t uid, extractBearerToken authHeader = some t → verify t = .valid uid →
      (∀ u, users.filter (fun x => x.id == uid) ≠ [u]) →
      authenticateToken verify users authHeader
        = .respond 401 "Usuário inativo ou não encontrado" none)
  ∧ (∀ t uid u, extractBearerToken authHeader = some t → verify t = .valid uid →
      users.filter (fun x => x.id == uid) = [u] → u.is_active = false →
      authenticateToken verify users authHeader
        = .respond 401 "Usuário inativo ou não encontrado" none)
  ∧ (∀ t uid u, extractBearerToken authHeader = some t → verify t = .valid uid →
      users.filter (fun x => x.id == uid) = [u] → u.is_active = true →
      authenticateToken verify users authHeader
        = .proceed
            { id := u.id, tenantId := u.tenant_id, email := u.email,
              name := u.name, accountType := u.account_type }
            u.tenant_id ("tenant_" ++ stripDashes u.tenant_id)) := by
  refine ⟨?_, ?_, ?_, ?_, ?_, ?_⟩
  · intro h
    simp [authenticateToken, h]
  · intro t ht hv
    simp [authenticateToken, ht, hv]
  · intro t ht hv
    simp [authenticateToken, ht, hv]
  · intro t uid ht hv hne
    simp only [authenticateToken, ht, hv]
  · intro t uid u ht hv hf hact
    simp [authenticateToken, ht, hv, hf, hact]
  · intro t uid u ht hv hf hact
    simp [authenticateToken, ht, hv, hf, hact]

/-- Witness for C6: a concrete valid token and active user proceed with the
fields of the admin record. -/
theorem c6_authenticate_token_witness :
    authenticateToken (fun _ => .valid "u1")
      [{ id := "u1", tenant_id := "123e4567-e89b-12d3-a456-426614174000",
         email := "a@x.com", name := "Ana", account_type := "gerencial",
         password_hash := "h", is_active := true, last_login := none }]
      (some "Bearer tok")
      = .proceed
          { id := "u1", tenantId := "123e4567-e89b-12d3-a456-426614174000",
            email := "a@x.com", name := "Ana", accountType := "gerencial" }
          "123e4567-e89b-12d3-a456-426614174000"
          ("tenant_" ++ stripDashes "123e4567-e89b-12d3-a456-426614174000") :=
  (c6_authenticate_token (fun _ => .valid "u1")
    [{ id := "u1", tenant_id := "123e4567-e89b-12d3-a456-426614174000",
       email := "a@x.com", name := "Ana", account_type := "gerencial",
       password_hash := "h", is_active := true, last_login := none }]
    (some "Bearer tok")).2.2.2.2.2 "tok" "u1"
    { id := "u1", tenant_id := "123e4567-e89b-12d3-a456-426614174000",
      email := "a@x.com", name := "Ana", account_type := "gerencial",
      password_hash := "h", is_active := true, last_login := none }
    (by decide) (by decide) (by decide) (by decide)

/-! ## AuthService (auth.ts lines 86-212)

jwt.sign is deterministic in its payload, secret and signing time, so the
two freshly signed tokens of generateTokens are passed in as explicit
parameters (accessToken, refreshToken), as are the database NOW() value and
the UUID generated for the inserted row.  bcrypt is modelled by an abstract
hash function bhash: bcrypt.hash t stores bhash t, and
bcrypt.compare t h succeeds exactly when h = bhash t. -/

/-- AuthService.generateTokens: hash the refresh token and insert an active
refresh_tokens row expiring in 7 days; return both tokens. -/
def AuthService.generateTokens (bhash : String → String) (now : Nat)
    (accessToken refreshToken freshId : String) (user : AdminUser)
    (db : AdminDb) : (String × String) × AdminDb :=
  (⟨accessToken, refreshToken⟩,
    { db with refresh_tokens := db.refresh_tokens ++
        [{ id := freshId, user_id := user.id, token_hash := bhash refreshToken,
           is_active := true, expires_at := now + 7 * 24 * 60 * 60 * 1000 }] })

/-- AuthService.refreshAccessToken (auth.ts lines 120-183).  verifyRefresh
is jwt.verify against the refresh secret, returning the decoded userId on
success.  Every failure is rethrown by the catch block as
"Refresh token inválido"; the catch-block branch that would deactivate all
of a user tokens never fires, because neither the jwt errors nor the
thrown Error objects carry a userId property.  Note that the deactivation
of the matched row persists even when the subsequent user lookup fails. -/
def AuthService.refreshAccessToken (bhash : String → String)
    (verifyRefresh : String → Option String) (now : Nat)
    (accessToken newRefreshToken freshId : String) (refreshToken : String)
    (db : AdminDb) : Except String (String × String) × AdminDb :=
  match verifyRefresh refreshToken with
  | none => (.error "Refresh token inválido", db)
  | some userId =>
      let storedTokens := db.refresh_tokens.filter
        (fun r => r.user_id == userId && r.is_active && decide (now < r.expires_at))
      if storedTokens.isEmpty then (.error "Refresh token inválido", db)
      else
        match storedTokens.find? (fun r => bhash refreshToken == r.token_hash) with
        | none => (.error "Refresh token inválido", db)
        | some validToken =>
            let deactivated := db.refresh_tokens.map
              (fun r => if r.id == validToken.id then { r with is_active := false } else r)
            let db1 : AdminDb := { db with refresh_tokens := deactivated }
            match db1.users.filter (fun u => u.id == userId) with
            | [user] =>
                if user.is_active then
                  let res := AuthService.generateTokens bhash now accessToken
                    newRefreshToken freshId user db1
                  (.ok res.1, res.2)
                else (.error "Refresh token inválido", db1)
            | _ => (.error "Refresh token inválido", db1)

/-- AuthService.login (auth.ts lines 185-211). -/
def AuthService.login (bhash : String → String) (now : Nat)
    (accessToken refreshToken freshId : String) (email password : String)
    (db : AdminDb) : Except String (String × String) × AdminDb :=
  match db.users.filter (fun u => u.email == email && u.is_active) with
  | [user] =>
      if bhash password != user.password_hash then
        (.error "Email ou senha incorretos", db)
      else
        let touched := db.users.map
          (fun u => if u.id == user.id then { u with last_login := some now } else u)
        let db1 : AdminDb := { db with users := touched }
        let res := AuthService.generateTokens bhash now accessToken refreshToken
          freshId user db1
        (.ok res.1, res.2)
  | _ => (.error "Email ou senha incorretos", db)

/-- Claim C10: login fails with the same error text "Email ou senha
incorretos" both when no (single) active user carries the given email and
when the password does not match the stored hash, so the caller cannot
tell whether the email is registered. -/
theorem c10_login_uniform_error (bhash : String → String) (now : Nat)
    (accessToken refreshToken freshId : String) (email password : String)
    (db : AdminDb) :
    ((∀ u, db.users.filter (fun x => x.email == email && x.is_active) ≠ [u]) →
      (AuthService.login bhash now accessToken refreshToken freshId email password db).1
        = .error "Email ou senha incorretos")
  ∧ (∀ u, db.users.filter (fun x => x.email == email && x.is_active) = [u] →
      bhash password ≠ u.password_hash →
      (AuthService.login bhash now accessToken refreshToken freshId email password db).1
        = .error "Email ou senha incorretos") := by
  constructor
  · intro hne
    simp only [AuthService.login]
  · intro u hf hne
    simp only [AuthService.login, hf]
    rw [if_pos (by simpa using hne)]

/-- Witness for C10: the same error text on an unknown email (empty users
table) and on a wrong password for an existing active user. -/
theorem c10_login_uniform_error_witness :
    (AuthService.login (fun s => s) 0 "at" "rt" "r1" "a@x.com" "pw"
        { users := [], refresh_tokens := [] }).1
      = .error "Email ou senha incorretos"
  ∧ (AuthService.login (fun s => s) 0 "at" "rt" "r1" "a@x.com" "pw"
        { users := [{ id := "u1", tenant_id := "t1", email := "a@x.com",
                      name := "Ana", account_type := "gerencial",
                      password_hash := "other", is_active := true,
                      last_login := none }],
          refresh_tokens := [] }).1
      = .error "Email ou senha incorretos" :=
  ⟨(c10_login_uniform_error (fun s => s) 0 "at" "rt" "r1" "a@x.com" "pw"
      { users := [], refresh_tokens := [] }).1
      (by intro u h; exact List.noConfusion h),
   (c10_login_uniform_error (fun s => s) 0 "at" "rt" "r1" "a@x.com" "pw"
      { users := [{ id := "u1", tenant_id := "t1", email := "a@x.com",
                    name := "Ana", account_type := "gerencial",
                    password_hash := "other", is_active := true,
                    last_login := none }],
        refresh_tokens := [] }).2
      { id := "u1", tenant_id := "t1", email := "a@x.com", name := "Ana",
        account_type := "gerencial", password_hash := "other",
        is_active := true, last_login := none }
      (by decide) (by decide)⟩

/-- Claim C8: a successful refreshAccessToken call deactivates the stored
row whose hash matched the presented refresh token, and a second call with
the same token against the resulting state fails with "Refresh token
inválido" and changes nothing.  Hypotheses: the hash is collision-free
(injective), the freshly signed replacement token differs from the
presented one, stored hashes do not repeat across distinct rows, and the
id generated for the new row is fresh. -/
theorem c8_refresh_token_rotation (bhash : String → String)
    (verifyRefresh : String → Option String)
    (now now2 : Nat) (at1 rt1 fid1 at2 rt2 fid2 : String)
    (t : String) (db : AdminDb) (toks : String × String) (db' : AdminDb)
    (hinj : Function.Injective bhash)
    (hfresh : rt1 ≠ t)
    (hhash : ∀ r1 ∈ db.refresh_tokens, ∀ r2 ∈ db.refresh_tokens,
      r1.token_hash = r2.token_hash → r1.id = r2.id)
    (hfid : ∀ r ∈ db.refresh_tokens, r.id ≠ fid1)
    (hok : AuthService.refreshAccessToken bhash verifyRefresh now at1 rt1 fid1 t db
      = (.ok toks, db')) :
    (∃ m ∈ db.refresh_tokens, m.token_hash = bhash t ∧ m.is_active = true ∧
      ∀ r ∈ db'.refresh_tokens, r.id = m.id → r.is_active = false)
  ∧ AuthService.refreshAccessToken bhash verifyRefresh now2 at2 rt2 fid2 t db'
      = (.error "Refresh token inválido", db') := by
  simp only [AuthService.refreshAccessToken] at hok
  cases hv : verifyRefresh t with
  | none => simp only [hv] at hok; exact absurd hok (by simp)
  | some uid =>
      simp only [hv] at hok
      split at hok
      · simp at hok
      · split at hok
        · simp at hok
        · next validToken heq =>
            split at hok
            · next user hu =>
                split at hok
                · next hact =>
                    simp only [AuthService.generateTokens, Prod.mk.injEq,
                      Except.ok.injEq] at hok
                    obtain ⟨htoks, hdb⟩ := hok
                    have hmemf := List.mem_of_find?_eq_some heq
                    have hpred := List.find?_some heq
                    have hmem := (List.mem_filter.mp hmemf).1
                    have hfilt := (List.mem_filter.mp hmemf).2
                    have hvact : validToken.is_active = true := by
                      simp only [Bool.and_eq_true] at hfilt
                      exact hfilt.1.2
                    have hvhash : validToken.token_hash = bhash t :=
                      (eq_of_beq hpred).symm
                    subst hdb
                    constructor
                    · refine ⟨validToken, hmem, hvhash, hvact, ?_⟩
                      intro r hr hid
                      rcases List.mem_append.mp hr with hrm | hrnew
                      · obtain ⟨r0, hr0, hmap⟩ := List.mem_map.mp hrm
                        by_cases hbeq : (r0.id == validToken.id) = true
                        · rw [if_pos hbeq] at hmap
                          rw [← hmap]
                        · rw [if_neg hbeq] at hmap
                          subst hmap
                          exact absurd (beq_iff_eq.mpr hid) hbeq
                      · rw [List.mem_singleton] at hrnew
                        subst hrnew
                        exact absurd hid.symm (hfid validToken hmem)
                    · have hkey : ∀ r ∈ (db.refresh_tokens.map
                          (fun r => if (r.id == validToken.id) = true then
                            { id := r.id, user_id := r.user_id, token_hash := r.token_hash,
                              is_active := false, expires_at := r.expires_at } else r))
                          ++ [{ id := fid1, user_id := user.id, token_hash := bhash rt1,
                                is_active := true,
                                expires_at := now + 7 * 24 * 60 * 60 * 1000 : RefreshTokenRow }],
                          r.is_active = true → (bhash t == r.token_hash) = false := by
                        intro r hr hact2
                        rcases List.mem_append.mp hr with hrm | hrnew
                        · obtain ⟨r0, hr0, hmap⟩ := List.mem_map.mp hrm
                          by_cases hbeq : (r0.id == validToken.id) = true
                          · rw [if_pos hbeq] at hmap
                            rw [← hmap] at hact2
                            simp at hact2
                          · rw [if_neg hbeq] at hmap
                            subst hmap
                            apply Bool.eq_false_iff.mpr
                            intro hb
                            have hsame : r0.token_hash = bhash t := (eq_of_beq hb).symm
                            have := hhash r0 hr0 validToken hmem (hsame.trans hvhash.symm)
                            exact absurd (beq_iff_eq.mpr this) hbeq
                        · rw [List.mem_singleton] at hrnew
                          subst hrnew
                          apply Bool.eq_false_iff.mpr
                          intro hb
                          exact hfresh (hinj (eq_of_beq hb).symm)
                      have hfind : (((db.refresh_tokens.map
                          (fun r => if (r.id == validToken.id) = true then
                            { id := r.id, user_id := r.user_id, token_hash := r.token_hash,
                              is_active := false, expires_at := r.expires_at } else r))
                          ++ [{ id := fid1, user_id := user.id, token_hash := bhash rt1,
                                is_active := true,
                                expires_at := now + 7 * 24 * 60 * 60 * 1000 : RefreshTokenRow }]).filter
                          (fun r => r.user_id == uid && r.is_active && decide (now2 < r.expires_at))).find?
                          (fun r => bhash t == r.token_hash) = none := by
                        apply List.find?_eq_none.mpr
                        intro x hx
                        have hx1 := (List.mem_filter.mp hx).1
                        have hx2 := (List.mem_filter.mp hx).2
                        have hxact : x.is_active = true := by
                          simp only [Bool.and_eq_true] at hx2
                          exact hx2.1.2
                        simp [hkey x hx1 hxact]
                      simp only [AuthService.refreshAccessToken, hv, hfind]
                      split
                      · rfl
                      · rfl
                · simp at hok
            · simp at hok

/-- Witness for C8 at a concrete store: one active stored token; after the
successful refresh the row is inactive and replaying the token fails. -/
theorem c8_refresh_token_rotation_witness :
    (∃ m ∈ [({ id := "r1", user_id := "u1", token_hash := "tok",
               is_active := true, expires_at := 10 } : RefreshTokenRow)],
        m.token_hash = "tok" ∧ m.is_active = true ∧
        ∀ r ∈ [({ id := "r1", user_id := "u1", token_hash := "tok",
                  is_active := false, expires_at := 10 } : RefreshTokenRow),
                { id := "r2", user_id := "u1", token_hash := "tok2",
                  is_active := true, expires_at := 604800000 }],
          r.id = m.id → r.is_active = false)
  ∧ AuthService.refreshAccessToken (fun s => s) (fun _ => some "u1") 0
      "acc2" "tok3" "r3" "tok"
      { users := [{ id := "u1", tenant_id := "t1", email := "a@x.com",
                    name := "Ana", account_type := "gerencial",
                    password_hash := "p", is_active := true, last_login := none }],
        refresh_tokens := [{ id := "r1", user_id := "u1", token_hash := "tok",
                             is_active := false, expires_at := 10 },
                           { id := "r2", user_id := "u1", token_hash := "tok2",
                             is_active := true, expires_at := 604800000 }] }
      = (.error "Refresh token inválido",
         { users := [{ id := "u1", tenant_id := "t1", email := "a@x.com",
                       name := "Ana", account_type := "gerencial",
                       password_hash := "p", is_active := true, last_login := none }],
           refresh_tokens := [{ id := "r1", user_id := "u1", token_hash := "tok",
                                is_active := false, expires_at := 10 },
                              { id := "r2", user_id := "u1", token_hash := "tok2",
                                is_active := true, expires_at := 604800000 }] }) :=
  c8_refresh_token_rotation (fun s => s) (fun _ => some "u1") 0 0
    "acc" "tok2" "r2" "acc2" "tok3" "r3" "tok"
    { users := [{ id := "u1", tenant_id := "t1", email := "a@x.com",
                  name := "Ana", account_type := "gerencial",
                  password_hash := "p", is_active := true, last_login := none }],
      refresh_tokens := [{ id := "r1", user_id := "u1", token_hash := "tok",
                           is_active := true, expires_at := 10 }] }
    ("acc", "tok2")
    { users := [{ id := "u1", tenant_id := "t1", email := "a@x.com",
                  name := "Ana", account_type := "gerencial",
                  password_hash := "p", is_active := true, last_login := none }],
      refresh_tokens := [{ id := "r1", user_id := "u1", token_hash := "tok",
                           is_active := false, expires_at := 10 },
                         { id := "r2", user_id := "u1", token_hash := "tok2",
                           is_active := true, expires_at := 604800000 }] }
    (fun _ _ h => h) (by decide) (by decide) (by decide) rfl

/-! ## Tenant schema state (supabase migration, part_001)

Each tenant schema holds the tables the services below touch.  SQL queries
are interpreted relationally on these explicit lists.  NOW() is passed as
an explicit timestamp parameter; date columns carry an absolute month index
and a day, so that DATE_TRUNC to the month is the month component. -/

/-- A date value: absolute month index (year * 12 + month) and day. -/
structure CFDate where
  month : Nat
  day : Nat
deriving DecidableEq, Repr

/-- SQL comparison of two dates (a <= b). -/
def CFDate.le (a b : CFDate) : Bool :=
  decide (a.month < b.month) || (a.month == b.month && decide (a.day ≤ b.day))

/-- Row of the per-tenant publications table (migration part_001). The tags
column stores the serialized array text the INSERT passes. -/
structure Publication where
  id : String
  user_id : String
  data_publicacao : CFDate
  processo : String
  diario : String
  vara_comarca : String
  nome_pesquisado : String
  status : String
  conteudo : Option String
  observacoes : Option String
  responsavel : Option String
  numero_processo : Option String
  cliente : Option String
  urgencia : String
  tags : String
  atribuido_para_id : Option String
  atribuido_para_nome : Option String
  data_atribuicao : Option Nat
  created_at : Nat
  updated_at : Nat
deriving DecidableEq, Repr

/-- Row of the per-tenant cash_flow table.  Columns the INSERT can leave
NULL are Options. -/
structure Transaction where
  id : String
  type : Option String
  amount : Option ℚ
  category_id : Option String
  category_name : String
  description : Option String
  date : Option CFDate
  payment_method : Option String
  status : String
  tags : Option String
  project_id : Option String
  project_title : Option String
  client_id : Option String
  client_name : Option String
  is_recurring : Bool
  recurring_frequency : Option String
  notes : Option String
  created_by : String
  created_at : Nat
  updated_at : Nat
deriving DecidableEq, Repr

/-- Row of the per-tenant projects table (the columns read by the join in
CashFlowService.create). -/
structure Project where
  id : String
  title : String
  client_id : Option String
deriving DecidableEq, Repr

/-- Row of the per-tenant clients table (the column read by the join). -/
structure Client where
  id : String
  name : String
deriving DecidableEq, Repr

/-- Row of the per-tenant audit_log table.  The JSON.stringify payloads are
modelled by the Repr serialization of the row values. -/
structure AuditEntry where
  user_id : String
  table_name : String
  record_id : String
  operation : String
  old_data : Option String
  new_data : Option String
  created_at : Nat
deriving DecidableEq

/-- Row of the per-tenant notifications table.  action_data holds the
serialized JSON payload text. -/
structure NotificationRow where
  type : String
  title : String
  message : String
  category : String
  entity_type : Option String
  entity_id : Option String
  action_data : Option String
  user_id : Option String
  created_by : String
  created_at : Nat
deriving DecidableEq

/-- The tables of one tenant schema used by the modelled services. -/
structure TenantDb where
  clients : List Client
  projects : List Project
  cash_flow : List Transaction
  publications : List Publication
  audit_log : List AuditEntry
  notifications : List NotificationRow
deriving DecidableEq

/-- Which of the best-effort INSERTs of BaseService fail on this request;
a true flag models the corresponding database INSERT throwing. -/
structure Faults where
  auditFails : Bool
  notifFails : Bool
deriving DecidableEq

def noFaults : Faults := { auditFails := false, notifFails := false }

/-! ### BaseService helpers (part_012) -/

/-- BaseService.requirePermission (part_012 lines 90-106). -/
def BaseService.requirePermission (u : AuthenticatedUser)
    (permission moduleName : String) : Except String Unit :=
  if u.accountType == "simples"
      && (moduleName == "cash_flow" || moduleName == "financial_dashboard") then
    .error "Conta Simples não tem acesso a dados financeiros"
  else if moduleName == "settings" && u.accountType != "gerencial" then
    .error "Apenas Conta Gerencial pode acessar configurações"
  else
    .ok ()

/-- BaseService.auditLog (part_012 lines 33-56): INSERT one audit row; any
error raised by the INSERT is caught and swallowed, so the function always
returns normally, with the state unchanged when the INSERT failed. -/
def BaseService.auditLog (u : AuthenticatedUser) (fault : Bool)
    (tableName operation recordId : String) (old_data new_data : Option String)
    (now : Nat) (db : TenantDb) : TenantDb :=
  if fault then db
  else
    { db with audit_log := db.audit_log ++
        [{ user_id := u.id, table_name := tableName, record_id := recordId,
           operation := operation, old_data := old_data, new_data := new_data,
           created_at := now }] }

/-- BaseService.createNotification (part_012 lines 58-88): INSERT one
notification row; any error raised by the INSERT is caught and swallowed. -/
def BaseService.createNotification (u : AuthenticatedUser) (fault : Bool)
    (ntype title message category : String)
    (entityType entityId actionData userId : Option String)
    (now : Nat) (db : TenantDb) : TenantDb :=
  if fault then db
  else
    { db with notifications := db.notifications ++
        [{ type := ntype, title := title, message := message,
           category := category, entity_type := entityType,
           entity_id := entityId, action_data := actionData,
           user_id := userId, created_by := u.name, created_at := now }] }

theorem BaseService.auditLog_publications (u : AuthenticatedUser) (fault : Bool)
    (tn op rid : String) (od nd : Option String) (now : Nat) (db : TenantDb) :
    (BaseService.auditLog u fault tn op rid od nd now db).publications
      = db.publications := by
  unfold BaseService.auditLog
  split <;> rfl

theorem BaseService.auditLog_cash_flow (u : AuthenticatedUser) (fault : Bool)
    (tn op rid : String) (od nd : Option String) (now : Nat) (db : TenantDb) :
    (BaseService.auditLog u fault tn op rid od nd now db).cash_flow
      = db.cash_flow := by
  unfold BaseService.auditLog
  split <;> rfl

theorem BaseService.createNotification_publications (u : AuthenticatedUser)
    (fault : Bool) (nt ti me ca : String) (et ei ad ui : Option String)
    (now : Nat) (db : TenantDb) :
    (BaseService.createNotification u fault nt ti me ca et ei ad ui now db).publications
      = db.publications := by
  unfold BaseService.createNotification
  split <;> rfl

theorem BaseService.createNotification_cash_flow (u : AuthenticatedUser)
    (fault : Bool) (nt ti me ca : String) (et ei ad ui : Option String)
    (now : Nat) (db : TenantDb) :
    (BaseService.createNotification u fault nt ti me ca et ei ad ui now db).cash_flow
      = db.cash_flow := by
  unfold BaseService.createNotification
  split <;> rfl

/-! ### SQL helpers: ILIKE and ORDER BY -/

/-- Substring test on character lists. -/
def containsSub (hay pat : List Char) : Bool :=
  match hay with
  | [] => pat.isEmpty
  | _ :: cs => pat.isPrefixOf hay || containsSub cs pat

/-- col ILIKE escaped pattern with percent on both sides: case-insensitive
substring containment. -/
def ilike (value pattern : String) : Bool :=
  containsSub value.toLower.toList pattern.toLower.toList

/-- ILIKE on a nullable column: NULL never matches. -/
def ilikeOpt (value : Option String) (pattern : String) : Bool :=
  match value with
  | some s => ilike s pattern
  | none => false

/-- Insertion of one element into a list sorted by le. -/
def insertSorted {α : Type} (le : α → α → Bool) (x : α) : List α → List α
  | [] => [x]
  | y :: ys => if le x y then x :: y :: ys else y :: insertSorted le x ys

/-- ORDER BY: insertion sort by the given SQL ordering. -/
def orderBy {α : Type} (le : α → α → Bool) : List α → List α
  | [] => []
  | x :: xs => insertSorted le x (orderBy le xs)

theorem mem_insertSorted {α : Type} (le : α → α → Bool) (x a : α) :
    ∀ l : List α, a ∈ insertSorted le x l ↔ a = x ∨ a ∈ l := by
  intro l
  induction l with
  | nil => simp [insertSorted]
  | cons y ys ih =>
      simp only [insertSorted]
      by_cases h : le x y = true
      · simp [h]
      · rw [if_neg h]
        simp [ih]
        tauto

theorem mem_orderBy {α : Type} (le : α → α → Bool) (a : α) :
    ∀ l : List α, a ∈ orderBy le l ↔ a ∈ l := by
  intro l
  induction l with
  | nil => simp [orderBy]
  | cons x xs ih =>
      simp [orderBy, mem_insertSorted, ih]

/-- Counting over a filtered list is unchanged when the counted predicate
already implies the filter. -/
theorem countP_filter_subsumed {α : Type} (f q : α → Bool) :
    ∀ l : List α, (∀ x, q x = true → f x = true) →
      (l.filter f).countP q = l.countP q := by
  intro l h
  induction l with
  | nil => rfl
  | cons a l ih =>
      by_cases hf : f a = true
      · simp [List.filter_cons, hf, List.countP_cons, ih]
      · have hq : q a = false := by
          cases hqa : q a with
          | false => rfl
          | true => exact absurd (h a hqa) hf
        simp [List.filter_cons, hf, List.countP_cons, hq, ih]

/-! ## PublicationService (part of src/server/services, lines 224-404) -/

/-- Query-string filters accepted by PublicationService.getAll. -/
structure PubFilters where
  search : Option String
  status : Option String
deriving DecidableEq

/-- Request body accepted by PublicationService.create. -/
structure PubInput where
  data_publicacao : CFDate
  processo : String
  diario : String
  vara_comarca : String
  nome_pesquisado : String
  status : Option String
  conteudo : Option String
  observacoes : Option String
  responsavel : Option String
  numero_processo : Option String
  cliente : Option String
  urgencia : Option String
  tags : Option (List String)
deriving DecidableEq

/-- ORDER BY data_publicacao DESC, created_at DESC. -/
def pubOrder (a b : Publication) : Bool :=
  if a.data_publicacao == b.data_publicacao then
    decide (b.created_at ≤ a.created_at)
  else
    CFDate.le b.data_publicacao a.data_publicacao

/-- getAll: SELECT on publications WHERE user_id = this.user.id plus the
optional search and status clauses. -/
def PublicationService.getAll (u : AuthenticatedUser) (filters : PubFilters)
    (db : TenantDb) : Except String (List Publication) × TenantDb :=
  match BaseService.requirePermission u "read" "publications" with
  | .error e => (.error e, db)
  | .ok _ =>
      let rows := db.publications.filter (fun r =>
        r.user_id == u.id
        && (match filters.search with
            | none => true
            | some s => ilike r.processo s || ilike r.nome_pesquisado s)
        && (match filters.status with
            | none => true
            | some st => r.status == st))
      (.ok (orderBy pubOrder rows), db)

/-- getById: SELECT WHERE id = $1 AND user_id = $2; throws when no row
matches. -/
def PublicationService.getById (u : AuthenticatedUser) (id : String)
    (db : TenantDb) : Except String Publication × TenantDb :=
  match BaseService.requirePermission u "read" "publications" with
  | .error e => (.error e, db)
  | .ok _ =>
      match db.publications.filter (fun r => r.id == id && r.user_id == u.id) with
      | [] => (.error "Publicação não encontrada", db)
      | r :: _ => (.ok r, db)

/-- create: INSERT a row owned by this.user.id, then best-effort audit. -/
def PublicationService.create (u : AuthenticatedUser) (data : PubInput)
    (faults : Faults) (now : Nat) (freshId : String) (db : TenantDb) :
    Except String Publication × TenantDb :=
  match BaseService.requirePermission u "write" "publications" with
  | .error e => (.error e, db)
  | .ok _ =>
      let row : Publication :=
        { id := freshId, user_id := u.id,
          data_publicacao := data.data_publicacao, processo := data.processo,
          diario := data.diario, vara_comarca := data.vara_comarca,
          nome_pesquisado := data.nome_pesquisado,
          status := data.status.getD "nova", conteudo := data.conteudo,
          observacoes := data.observacoes, responsavel := data.responsavel,
          numero_processo := data.numero_processo, cliente := data.cliente,
          urgencia := data.urgencia.getD "media",
          tags := reprStr (data.tags.getD []),
          atribuido_para_id := none, atribuido_para_nome := none,
          data_atribuicao := none, created_at := now, updated_at := now }
      let db1 : TenantDb := { db with publications := db.publications ++ [row] }
      let db2 := BaseService.auditLog u faults.auditFails "publications"
        "CREATE" row.id none (some (reprStr row)) now db1
      (.ok row, db2)

/-- updateStatus: getById (user-scoped), UPDATE WHERE id AND user_id, audit
and, when the status moves from nova to pendente, a notification. -/
def PublicationService.updateStatus (u : AuthenticatedUser)
    (id status : String) (observacoes : Option String) (faults : Faults)
    (now : Nat) (db : TenantDb) : Except String Publication × TenantDb :=
  match BaseService.requirePermission u "write" "publications" with
  | .error e => (.error e, db)
  | .ok _ =>
      match PublicationService.getById u id db with
      | (.error e, _) => (.error e, db)
      | (.ok oldPublication, _) =>
          let updated := db.publications.map (fun r =>
            if r.id == id && r.user_id == u.id then
              { r with status := status,
                       observacoes := (match observacoes with
                         | some o => some o
                         | none => r.observacoes),
                       updated_at := now }
            else r)
          let publication :=
            (updated.find? (fun r => r.id == id && r.user_id == u.id)).getD oldPublication
          let db1 : TenantDb := { db with publications := updated }
          let db2 := BaseService.auditLog u faults.auditFails "publications"
            "UPDATE" id (some (reprStr oldPublication)) (some (reprStr publication)) now db1
          let db3 :=
            if oldPublication.status == "nova" && status == "pendente" then
              BaseService.createNotification u faults.notifFails "info"
                "Publicação Visualizada"
                (u.name ++ " visualizou a publicação " ++ publication.processo)
                "publications" (some "publication") (some publication.id)
                (some (publication.id ++ ";page=/publicacoes")) none now db2
            else db2
          (.ok publication, db3)

/-- assignToUser: getById (user-scoped), UPDATE WHERE id AND user_id, audit
and a notification addressed to the assignee. -/
def PublicationService.assignToUser (u : AuthenticatedUser)
    (id assignedUserId assignedUserName : String) (faults : Faults)
    (now : Nat) (db : TenantDb) : Except String Publication × TenantDb :=
  match BaseService.requirePermission u "write" "publications" with
  | .error e => (.error e, db)
  | .ok _ =>
      match PublicationService.getById u id db with
      | (.error e, _) => (.error e, db)
      | (.ok oldPublication, _) =>
          let updated := db.publications.map (fun r =>
            if r.id == id && r.user_id == u.id then
              { r with status := "atribuida",
                       responsavel := some assignedUserName,
                       atribuido_para_id := some assignedUserId,
                       atribuido_para_nome := some assignedUserName,
                       data_atribuicao := some now,
                       updated_at := now }
            else r)
          let publication :=
            (updated.find? (fun r => r.id == id && r.user_id == u.id)).getD oldPublication
          let db1 : TenantDb := { db with publications := updated }
          let db2 := BaseService.auditLog u faults.auditFails "publications"
            "UPDATE" id (some (reprStr oldPublication)) (some (reprStr publication)) now db1
          let db3 := BaseService.createNotification u faults.notifFails "info"
            "Publicação Atribuída"
            (u.name ++ " atribuiu publicação para " ++ assignedUserName)
            "publications" (some "publication") (some publication.id)
            (some (publication.id ++ ";page=/publicacoes"))
            (some assignedUserId) now db2
          (.ok publication, db3)

/-- delete: getById (user-scoped), DELETE WHERE id AND user_id, audit. -/
def PublicationService.delete (u : AuthenticatedUser) (id : String)
    (faults : Faults) (now : Nat) (db : TenantDb) :
    Except String Unit × TenantDb :=
  match BaseService.requirePermission u "write" "publications" with
  | .error e => (.error e, db)
  | .ok _ =>
      match PublicationService.getById u id db with
      | (.error e, _) => (.error e, db)
      | (.ok publication, _) =>
          let remaining := db.publications.filter (fun r =>
            !(r.id == id && r.user_id == u.id))
          let db1 : TenantDb := { db with publications := remaining }
          let db2 := BaseService.auditLog u faults.auditFails "publications"
            "DELETE" id (some (reprStr publication)) none now db1
          (.ok (), db2)

/-- Result row of PublicationService.getStats. -/
structure PubStats where
  total : Nat
  novas : Nat
  pendentes : Nat
  atribuidas : Nat
  finalizadas : Nat
  descartadas : Nat
  porcentagemConcluidas : Int
deriving DecidableEq

/-- JavaScript Math.round: floor of x + 1/2. -/
def jsRound (q : ℚ) : Int := (q + 1/2).floor

/-- getStats: six COUNT queries, all WHERE user_id = this.user.id. -/
def PublicationService.getStats (u : AuthenticatedUser) (db : TenantDb) :
    Except String PubStats × TenantDb :=
  match BaseService.requirePermission u "read" "publications" with
  | .error e => (.error e, db)
  | .ok _ =>
      let totalCount := db.publications.countP (fun r => r.user_id == u.id)
      let novas := db.publications.countP
        (fun r => r.user_id == u.id && r.status == "nova")
      let pendentes := db.publications.countP
        (fun r => r.user_id == u.id && r.status == "pendente")
      let atribuidas := db.publications.countP
        (fun r => r.user_id == u.id && r.status == "atribuida")
      let finalizadaCount := db.publications.countP
        (fun r => r.user_id == u.id && r.status == "finalizada")
      let descartadas := db.publications.countP
        (fun r => r.user_id == u.id && r.status == "descartada")
      (.ok
        { total := totalCount, novas := novas, pendentes := pendentes,
          atribuidas := atribuidas, finalizadas := finalizadaCount,
          descartadas := descartadas,
          porcentagemConcluidas :=
            if totalCount > 0 then
              jsRound ((finalizadaCount : ℚ) / (totalCount : ℚ) * 100)
            else 0 }, db)

/-- requirePermission never rejects the publications module. -/
theorem requirePermission_publications (u : AuthenticatedUser) (perm : String) :
    BaseService.requirePermission u perm "publications" = .ok () := by
  unfold BaseService.requirePermission
  simp

/-- Claim C1: every PublicationService operation reads, counts, updates or
deletes only publications rows owned by the calling user: getAll returns
only rows with user_id = u.id; getById on a row owned by another user
fails with "Publicação não encontrada" and leaves the state unchanged;
updateStatus, assignToUser and delete keep every foreign row present and
unchanged in the resulting state; and getStats computes the same counts
when every foreign row is removed beforehand. -/
theorem c1_publication_user_isolation
    (u : AuthenticatedUser) (db : TenantDb) (r : Publication)
    (filters : PubFilters) (faults : Faults) (now : Nat)
    (targetId st : String) (obs : Option String) (auid aunm : String)
    (hr : r ∈ db.publications) (hne : r.user_id ≠ u.id)
    (hids : (db.publications.map Publication.id).Nodup) :
    (∀ ps, (PublicationService.getAll u filters db).1 = .ok ps →
      ∀ p ∈ ps, p.user_id = u.id)
  ∧ PublicationService.getById u r.id db = (.error "Publicação não encontrada", db)
  ∧ r ∈ (PublicationService.updateStatus u targetId st obs faults now db).2.publications
  ∧ r ∈ (PublicationService.assignToUser u targetId auid aunm faults now db).2.publications
  ∧ r ∈ (PublicationService.delete u targetId faults now db).2.publications
  ∧ (PublicationService.getStats u db).1
      = (PublicationService.getStats u
          { db with publications :=
              db.publications.filter (fun p => p.user_id == u.id) }).1 := by
  have hu : (r.user_id == u.id) = false := beq_eq_false_iff_ne.mpr hne
  have hcondF : ∀ tid : String, (r.id == tid && r.user_id == u.id) = false := by
    intro tid
    rw [hu]
    exact Bool.and_false _
  refine ⟨?_, ?_, ?_, ?_, ?_, ?_⟩
  · intro ps hps p hp
    simp only [PublicationService.getAll, requirePermission_publications,
      Except.ok.injEq] at hps
    subst hps
    rw [mem_orderBy] at hp
    have := (List.mem_filter.mp hp).2
    simp only [Bool.and_eq_true, beq_iff_eq] at this
    exact this.1.1
  · have hfilt : db.publications.filter
        (fun x => x.id == r.id && x.user_id == u.id) = [] := by
      rw [List.filter_eq_nil_iff]
      intro x hx
      simp only [Bool.and_eq_true, beq_iff_eq, not_and]
      intro hid huid
      have hxr : x = r := List.inj_on_of_nodup_map hids hx hr hid
      exact hne (hxr ▸ huid)
    simp only [PublicationService.getById, requirePermission_publications, hfilt]
  · simp only [PublicationService.updateStatus, requirePermission_publications]
    cases hg : PublicationService.getById u targetId db with
    | mk res db0 =>
        cases res with
        | error e => simp only [hg]; exact hr
        | ok oldPub =>
            simp only [hg]
            split
            · rw [BaseService.createNotification_publications,
                BaseService.auditLog_publications]
              exact List.mem_map.mpr ⟨r, hr, by simp [hcondF targetId]⟩
            · rw [BaseService.auditLog_publications]
              exact List.mem_map.mpr ⟨r, hr, by simp [hcondF targetId]⟩
  · simp only [PublicationService.assignToUser, requirePermission_publications]
    cases hg : PublicationService.getById u targetId db with
    | mk res db0 =>
        cases res with
        | error e => simp only [hg]; exact hr
        | ok oldPub =>
            simp only [hg]
            rw [BaseService.createNotification_publications,
              BaseService.auditLog_publications]
            exact List.mem_map.mpr ⟨r, hr, by simp [hcondF targetId]⟩
  · simp only [PublicationService.delete, requirePermission_publications]
    cases hg : PublicationService.getById u targetId db with
    | mk res db0 =>
        cases res with
        | error e => simp only [hg]; exact hr
        | ok pub =>
            simp only [hg]
            rw [BaseService.auditLog_publications]
            exact List.mem_filter.mpr ⟨hr, by simp [hcondF targetId]⟩
  · simp only [PublicationService.getStats, requirePermission_publications]
    rw [countP_filter_subsumed _ _ _ (fun x h => h),
      countP_filter_subsumed _ _ _ (fun x h => by simp only [Bool.and_eq_true] at h; exact h.1),
      countP_filter_subsumed _ _ _ (fun x h => by simp only [Bool.and_eq_true] at h; exact h.1),
      countP_filter_subsumed _ _ _ (fun x h => by simp only [Bool.and_eq_true] at h; exact h.1),
      countP_filter_subsumed _ _ _ (fun x h => by simp only [Bool.and_eq_true] at h; exact h.1),
      countP_filter_subsumed _ _ _ (fun x h => by simp only [Bool.and_eq_true] at h; exact h.1)]

/-- A publication row owned by user uY, used as the concrete foreign row. -/
def samplePubY : Publication :=
  { id := "p1", user_id := "uY",
    data_publicacao := { month := 24300, day := 1 }, processo := "0001",
    diario := "DJE", vara_comarca := "1a Vara",
    nome_pesquisado := "Fulano", status := "nova", conteudo := none,
    observacoes := none, responsavel := none, numero_processo := none,
    cliente := none, urgencia := "media", tags := "[]",
    atribuido_para_id := none, atribuido_para_nome := none,
    data_atribuicao := none, created_at := 0, updated_at := 0 }

/-- A tenant state holding only the row of uY. -/
def sampleDbY : TenantDb :=
  { clients := [], projects := [], cash_flow := [],
    publications := [samplePubY], audit_log := [], notifications := [] }

/-- The authenticated user uX, distinct from uY. -/
def sampleUserX : AuthenticatedUser :=
  { id := "uX", tenantId := "t1", email := "x@x.com", name := "X",
    accountType := "gerencial" }

/-- Witness for C1: user uX cannot getById the publication of uY; the call
fails with the not-found error and changes nothing. -/
theorem c1_publication_user_isolation_witness :
    PublicationService.getById sampleUserX "p1" sampleDbY
      = (.error "Publicação não encontrada", sampleDbY) :=
  (c1_publication_user_isolation sampleUserX sampleDbY samplePubY
    { search := none, status := none } noFaults 0
    "p1" "pendente" none "uZ" "Z"
    (by decide) (by decide) (by decide)).2.1

/-! ## CashFlowService (src/server/services/CashFlowService.ts) -/

/-- Query-string filters accepted by CashFlowService.getAll. -/
structure CashFilters where
  search : Option String
  type : Option String
  category : Option String
  status : Option String
  date_start : Option CFDate
  date_end : Option CFDate
deriving DecidableEq

/-- Request body accepted by CashFlowService.create and update. -/
structure TransactionInput where
  type : Option String
  amount : Option ℚ
  category_id : Option String
  description : Option String
  date : Option CFDate
  payment_method : Option String
  status : Option String
  tags : Option (List String)
  project_id : Option String
  client_id : Option String
  is_recurring : Option Bool
  recurring_frequency : Option String
  notes : Option String
deriving DecidableEq

/-- getCategoryName: the fixed category map with the id itself as
fallback. -/
def CashFlowService.getCategoryName (categoryId : String) : String :=
  match categoryId with
  | "honorarios" => "Honorários advocatícios"
  | "consultorias" => "Consultorias jurídicas"
  | "acordos" => "Acordos e mediações"
  | "custas_reemb" => "Custas judiciais reembolsadas"
  | "outros_servicos" => "Outros serviços jurídicos"
  | "salarios" => "Salários e encargos trabalhistas"
  | "aluguel" => "Aluguel / condomínio"
  | "contas" => "Contas (água, luz, internet)"
  | "material" => "Material de escritório"
  | "marketing" => "Marketing e publicidade"
  | "custas_judiciais" => "Custas judiciais"
  | "treinamentos" => "Treinamentos e cursos"
  | "transporte" => "Transporte e viagens"
  | "manutencao" => "Manutenção e equipamentos"
  | "impostos" => "Impostos e taxas"
  | "oab" => "Associações profissionais (OAB)"
  | "seguro" => "Seguro profissional"
  | other => other

/-- SQL col = value on a nullable column: NULL never matches. -/
def sqlEqOpt (col : Option String) (value : String) : Bool :=
  match col with
  | some s => s == value
  | none => false

/-- ORDER BY date DESC, created_at DESC (NULL dates first under DESC). -/
def cashOrder (a b : Transaction) : Bool :=
  match a.date, b.date with
  | none, none => decide (b.created_at ≤ a.created_at)
  | none, some _ => true
  | some _, none => false
  | some da, some db2 =>
      if da == db2 then decide (b.created_at ≤ a.created_at)
      else CFDate.le db2 da

/-- getAll: SELECT on cash_flow with the optional filter clauses. -/
def CashFlowService.getAll (u : AuthenticatedUser) (filters : CashFilters)
    (db : TenantDb) : Except String (List Transaction) × TenantDb :=
  match BaseService.requirePermission u "read" "cash_flow" with
  | .error e => (.error e, db)
  | .ok _ =>
      let rows := db.cash_flow.filter (fun r =>
        (match filters.search with
         | none => true
         | some s => ilikeOpt r.description s)
        && (match filters.type with
            | none => true
            | some t => sqlEqOpt r.type t)
        && (match filters.category with
            | none => true
            | some c => sqlEqOpt r.category_id c)
        && (match filters.status with
            | none => true
            | some st => r.status == st)
        && (match filters.date_start with
            | none => true
            | some ds => (match r.date with
                          | some d => CFDate.le ds d
                          | none => false))
        && (match filters.date_end with
            | none => true
            | some de => (match r.date with
                          | some d => CFDate.le d de
                          | none => false)))
      (.ok (orderBy cashOrder rows), db)

/-- getById: SELECT WHERE id = $1; throws when no row matches. -/
def CashFlowService.getById (u : AuthenticatedUser) (id : String)
    (db : TenantDb) : Except String Transaction × TenantDb :=
  match BaseService.requirePermission u "read" "cash_flow" with
  | .error e => (.error e, db)
  | .ok _ =>
      match db.cash_flow.filter (fun r => r.id == id) with
      | [] => (.error "Transação não encontrada", db)
      | r :: _ => (.ok r, db)

/-- The project/client columns read by the LEFT JOIN in create. -/
def CashFlowService.lookupProject (db : TenantDb) (pid : String) :
    Option String × Option String :=
  match db.projects.find? (fun p => p.id == pid) with
  | some p =>
      (some p.title,
        match p.client_id with
        | some cid =>
            (match db.clients.find? (fun c => c.id == cid) with
             | some c => some c.name
             | none => none)
        | none => none)
  | none => (none, none)

/-- create: optional project lookup, INSERT, best-effort audit and
notification. -/
def CashFlowService.create (u : AuthenticatedUser) (data : TransactionInput)
    (faults : Faults) (now : Nat) (freshId : String) (db : TenantDb) :
    Except String Transaction × TenantDb :=
  match BaseService.requirePermission u "write" "cash_flow" with
  | .error e => (.error e, db)
  | .ok _ =>
      let categoryName := CashFlowService.getCategoryName (data.category_id.getD "")
      let projectInfo : Option String × Option String :=
        match data.project_id with
        | some pid =>
            if pid != "none" then CashFlowService.lookupProject db pid
            else (none, none)
        | none => (none, none)
      let row : Transaction :=
        { id := freshId, type := data.type, amount := data.amount,
          category_id := data.category_id, category_name := categoryName,
          description := data.description, date := data.date,
          payment_method := data.payment_method,
          status := data.status.getD "confirmed",
          tags := some (reprStr (data.tags.getD [])),
          project_id := (if data.project_id == some "none" then none
                         else data.project_id),
          project_title := projectInfo.1,
          client_id := (if data.client_id == some "none" then none
                        else data.client_id),
          client_name := projectInfo.2,
          is_recurring := data.is_recurring.getD false,
          recurring_frequency := data.recurring_frequency,
          notes := data.notes, created_by := u.name,
          created_at := now, updated_at := now }
      let db1 : TenantDb := { db with cash_flow := db.cash_flow ++ [row] }
      let db2 := BaseService.auditLog u faults.auditFails "cash_flow"
        "CREATE" row.id none (some (reprStr row)) now db1
      let db3 := BaseService.createNotification u faults.notifFails "info"
        (if data.type == some "income" then "Nova Receita Registrada"
         else "Nova Despesa Registrada")
        (u.name ++ " registrou: " ++ data.description.getD "")
        "cash_flow" (some "transaction") (some row.id)
        (some (row.id ++ ";page=/fluxo-caixa")) none now db2
      (.ok row, db3)

/-- COALESCE of the new parameter with the old column value. -/
def coalesce {α : Type} (new old : Option α) : Option α :=
  match new with
  | some v => some v
  | none => old

/-- update: getById, UPDATE with per-column COALESCE, audit. -/
def CashFlowService.update (u : AuthenticatedUser) (id : String)
    (data : TransactionInput) (faults : Faults) (now : Nat) (db : TenantDb) :
    Except String Transaction × TenantDb :=
  match BaseService.requirePermission u "write" "cash_flow" with
  | .error e => (.error e, db)
  | .ok _ =>
      match CashFlowService.getById u id db with
      | (.error e, _) => (.error e, db)
      | (.ok oldTransaction, _) =>
          let categoryName := CashFlowService.getCategoryName (data.category_id.getD "")
          let updated := db.cash_flow.map (fun r =>
            if r.id == id then
              { r with
                type := coalesce data.type r.type,
                amount := coalesce data.amount r.amount,
                category_id := coalesce data.category_id r.category_id,
                category_name := categoryName,
                description := coalesce data.description r.description,
                date := coalesce data.date r.date,
                payment_method := coalesce data.payment_method r.payment_method,
                status := (match data.status with
                           | some s => s
                           | none => r.status),
                tags := (match data.tags with
                         | some ts => some (reprStr ts)
                         | none => r.tags),
                project_id := coalesce
                  (if data.project_id == some "none" then none
                   else data.project_id) r.project_id,
                client_id := coalesce
                  (if data.client_id == some "none" then none
                   else data.client_id) r.client_id,
                is_recurring := (match data.is_recurring with
                                 | some b => b
                                 | none => r.is_recurring),
                recurring_frequency :=
                  coalesce data.recurring_frequency r.recurring_frequency,
                notes := coalesce data.notes r.notes,
                updated_at := now }
            else r)
          let transaction := (updated.find? (fun r => r.id == id)).getD oldTransaction
          let db1 : TenantDb := { db with cash_flow := updated }
          let db2 := BaseService.auditLog u faults.auditFails "cash_flow"
            "UPDATE" id (some (reprStr oldTransaction)) (some (reprStr transaction))
            now db1
          (.ok transaction, db2)

/-- delete: getById, DELETE WHERE id = $1, audit. -/
def CashFlowService.delete (u : AuthenticatedUser) (id : String)
    (faults : Faults) (now : Nat) (db : TenantDb) :
    Except String Unit × TenantDb :=
  match BaseService.requirePermission u "write" "cash_flow" with
  | .error e => (.error e, db)
  | .ok _ =>
      match CashFlowService.getById u id db with
      | (.error e, _) => (.error e, db)
      | (.ok transaction, _) =>
          let remaining := db.cash_flow.filter (fun r => !(r.id == id))
          let db1 : TenantDb := { db with cash_flow := remaining }
          let db2 := BaseService.auditLog u faults.auditFails "cash_flow"
            "DELETE" id (some (reprStr transaction)) none now db1
          (.ok (), db2)

/-- Result of CashFlowService.getFinancialStats. -/
structure CashStats where
  totalIncome : ℚ
  totalExpenses : ℚ
  balance : ℚ
  monthlyIncome : ℚ
  monthlyExpenses : ℚ
  monthlyBalance : ℚ
  growth : ℚ
deriving DecidableEq

/-- CASE WHEN type = income THEN amount ELSE 0 (NULL amounts contribute
nothing to SUM). -/
def incomeAmount (r : Transaction) : ℚ :=
  match r.type, r.amount with
  | some "income", some a => a
  | _, _ => 0

/-- CASE WHEN type = expense THEN amount ELSE 0. -/
def expenseAmount (r : Transaction) : ℚ :=
  match r.type, r.amount with
  | some "expense", some a => a
  | _, _ => 0

/-- CASE WHEN type = income THEN amount ELSE -amount. -/
def signedAmount (r : Transaction) : ℚ :=
  match r.type, r.amount with
  | some "income", some a => a
  | _, some a => -a
  | _, none => 0

/-- PostgreSQL ROUND(x, 2): half away from zero at two decimals. -/
def pgRound2 (q : ℚ) : ℚ :=
  if q ≥ 0 then ((q * 100 + 1/2).floor : ℚ) / 100
  else -((((-q) * 100 + 1/2).floor : ℚ) / 100)

/-- Rows whose date falls in the given month. -/
def rowsInMonth (db : TenantDb) (m : Nat) : List Transaction :=
  db.cash_flow.filter (fun r =>
    match r.date with
    | some d => d.month == m
    | none => false)

/-- getFinancialStats: totals, current-month aggregates and the
month-over-month growth percentage.  nowDate is the NOW() date; the
unreachable all-zero branch for simples accounts is kept from the source
(requirePermission throws first). -/
def CashFlowService.getFinancialStats (u : AuthenticatedUser)
    (nowDate : CFDate) (db : TenantDb) : Except String CashStats × TenantDb :=
  match BaseService.requirePermission u "read" "cash_flow" with
  | .error e => (.error e, db)
  | .ok _ =>
      if u.accountType == "simples" then
        (.ok { totalIncome := 0, totalExpenses := 0, balance := 0,
               monthlyIncome := 0, monthlyExpenses := 0, monthlyBalance := 0,
               growth := 0 }, db)
      else
        let totalIncome := (db.cash_flow.map incomeAmount).sum
        let totalExpenses := (db.cash_flow.map expenseAmount).sum
        let monthlyRows := rowsInMonth db nowDate.month
        let monthlyIncome := (monthlyRows.map incomeAmount).sum
        let monthlyExpenses := (monthlyRows.map expenseAmount).sum
        let currentRows := rowsInMonth db nowDate.month
        let previousRows := rowsInMonth db (nowDate.month - 1)
        let growth :=
          if currentRows.isEmpty || previousRows.isEmpty then 0
          else
            let cur := (currentRows.map signedAmount).sum
            let prev := (previousRows.map signedAmount).sum
            if |prev| == 0 then 0
            else pgRound2 ((cur - prev) * 100 / |prev|)
        (.ok { totalIncome := totalIncome, totalExpenses := totalExpenses,
               balance := totalIncome - totalExpenses,
               monthlyIncome := monthlyIncome,
               monthlyExpenses := monthlyExpenses,
               monthlyBalance := monthlyIncome - monthlyExpenses,
               growth := growth }, db)

/-- Two-digit zero padding. -/
def pad2 (n : Nat) : String :=
  if n < 10 then "0" ++ toString n else toString n

/-- toLocaleDateString pt-BR on the stored date (day/month/year). -/
def formatDatePtBR (d : Option CFDate) : String :=
  let dd := d.getD { month := 0, day := 1 }
  pad2 dd.day ++ "/" ++ pad2 (dd.month % 12 + 1) ++ "/" ++ toString (dd.month / 12)

/-- amount.toFixed(2) with the decimal point replaced by a comma. -/
def formatAmount (a : Option ℚ) : String :=
  let q := a.getD 0
  let cents : Int :=
    if q ≥ 0 then (q * 100 + 1/2).floor else -(((-q) * 100 + 1/2).floor)
  (if cents < 0 then "-" else "") ++ toString (cents.natAbs / 100)
    ++ "," ++ pad2 (cents.natAbs % 100)

/-- JavaScript value || dash: null, undefined and the empty string all
become the dash. -/
def orDash (v : Option String) : String :=
  match v with
  | some s => if s == "" then "-" else s
  | none => "-"

/-- The status label column of the CSV export. -/
def statusLabel (status : String) : String :=
  if status == "confirmed" then "Confirmado"
  else if status == "pending" then "Pendente"
  else "Cancelado"

/-- One CSV data row. -/
def csvRow (t : Transaction) : List String :=
  [formatDatePtBR t.date,
   (if t.type == some "income" then "Receita" else "Despesa"),
   t.description.getD "", t.category_name, formatAmount t.amount,
   orDash t.payment_method, statusLabel t.status, orDash t.project_title,
   orDash t.client_name,
   (if t.created_by == "" then "-" else t.created_by), orDash t.notes]

/-- exportCSV: getAll, then the quoted comma-separated text. -/
def CashFlowService.exportCSV (u : AuthenticatedUser) (filters : CashFilters)
    (db : TenantDb) : Except String String × TenantDb :=
  match BaseService.requirePermission u "read" "cash_flow" with
  | .error e => (.error e, db)
  | .ok _ =>
      match CashFlowService.getAll u filters db with
      | (.error e, _) => (.error e, db)
      | (.ok transactions, _) =>
          let headers := ["Data", "Tipo", "Descrição", "Categoria", "Valor",
            "Método Pagamento", "Status", "Projeto", "Cliente", "Criado por",
            "Observações"]
          let dataLines := transactions.map (fun t =>
            String.intercalate "," ((csvRow t).map (fun f => "\"" ++ f ++ "\"")))
          (.ok (String.intercalate "\n"
            (String.intercalate "," headers :: dataLines)), db)

/-! ## Cashflow router (part_007) -/

/-- The seven cash-flow endpoints. -/
inductive CashEndpoint
  | getAllR
  | statsR
  | exportR
  | getByIdR
  | createR
  | updateR
  | deleteR
deriving DecidableEq

/-- Response body: a JSON error object, a JSON success payload, or a CSV
attachment. -/
inductive RespBody
  | errJson (error : String)
  | okJson
  | csvFile (text : String)
deriving DecidableEq

structure HttpResponse where
  status : Nat
  body : RespBody
deriving DecidableEq

/-- requireAccountType middleware (auth.ts lines 69-84): some response
short-circuits the chain, none calls next(). -/
def requireAccountType (allowedTypes : List String) (u : AuthenticatedUser) :
    Option HttpResponse :=
  if !(allowedTypes.contains u.accountType) then
    some { status := 403, body := .errJson "Acesso negado" }
  else none

/-- The request data a cash-flow route can consume. -/
structure RouteArgs where
  targetId : String
  filters : CashFilters
  input : TransactionInput
  faults : Faults
  now : Nat
  nowDate : CFDate
  freshId : String
deriving DecidableEq

/-- The cashflow router (part_007): per-endpoint middleware chain and
handler with its catch clause.  The third component records whether a
CashFlowService method was invoked.  Every endpoint except GET /stats runs
requireAccountType composta/gerencial after authenticateToken; GET /stats
runs only authenticateToken. -/
def cashflowRouter (ep : CashEndpoint) (u : AuthenticatedUser)
    (args : RouteArgs) (db : TenantDb) : HttpResponse × TenantDb × Bool :=
  match ep with
  | .getAllR =>
      match requireAccountType ["composta", "gerencial"] u with
      | some resp => (resp, db, false)
      | none =>
          match CashFlowService.getAll u args.filters db with
          | (.ok _, db2) => ({ status := 200, body := .okJson }, db2, true)
          | (.error _, db2) =>
              ({ status := 500, body := .errJson "Erro ao buscar transações" }, db2, true)
  | .statsR =>
      match CashFlowService.getFinancialStats u args.nowDate db with
      | (.ok _, db2) => ({ status := 200, body := .okJson }, db2, true)
      | (.error _, db2) =>
          ({ status := 500,
             body := .errJson "Erro ao buscar estatísticas financeiras" }, db2, true)
  | .exportR =>
      match requireAccountType ["composta", "gerencial"] u with
      | some resp => (resp, db, false)
      | none =>
          match CashFlowService.exportCSV u args.filters db with
          | (.ok csv, db2) => ({ status := 200, body := .csvFile csv }, db2, true)
          | (.error _, db2) =>
              ({ status := 500, body := .errJson "Erro ao exportar relatório" }, db2, true)
  | .getByIdR =>
      match requireAccountType ["composta", "gerencial"] u with
      | some resp => (resp, db, false)
      | none =>
          match CashFlowService.getById u args.targetId db with
          | (.ok _, db2) => ({ status := 200, body := .okJson }, db2, true)
          | (.error _, db2) =>
              ({ status := 404, body := .errJson "Transação não encontrada" }, db2, true)
  | .createR =>
      match requireAccountType ["composta", "gerencial"] u with
      | some resp => (resp, db, false)
      | none =>
          match CashFlowService.create u args.input args.faults args.now args.freshId db with
          | (.ok _, db2) => ({ status := 201, body := .okJson }, db2, true)
          | (.error _, db2) =>
              ({ status := 400, body := .errJson "Erro ao criar transação" }, db2, true)
  | .updateR =>
      match requireAccountType ["composta", "gerencial"] u with
      | some resp => (resp, db, false)
      | none =>
          match CashFlowService.update u args.targetId args.input args.faults args.now db with
          | (.ok _, db2) => ({ status := 200, body := .okJson }, db2, true)
          | (.error _, db2) =>
              ({ status := 400, body := .errJson "Erro ao atualizar transação" }, db2, true)
  | .deleteR =>
      match requireAccountType ["composta", "gerencial"] u with
      | some resp => (resp, db, false)
      | none =>
          match CashFlowService.delete u args.targetId args.faults args.now db with
          | (.ok _, db2) => ({ status := 200, body := .okJson }, db2, true)
          | (.error _, db2) =>
              ({ status := 400, body := .errJson "Erro ao excluir transação" }, db2, true)

/-- requirePermission rejects every cash_flow access of a simples account
with the fixed error, before any query runs. -/
theorem requirePermission_cash_flow_simples (u : AuthenticatedUser)
    (perm : String) (hs : u.accountType = "simples") :
    BaseService.requirePermission u perm "cash_flow"
      = .error "Conta Simples não tem acesso a dados financeiros" := by
  unfold BaseService.requirePermission
  rw [hs]
  simp

/-- Claim C5: for a simples account, every CashFlowService operation fails
with "Conta Simples não tem acesso a dados financeiros" from
requirePermission before any SQL runs, leaving the tenant state unchanged. -/
theorem c5_simples_no_financial_access (u : AuthenticatedUser) (db : TenantDb)
    (filters : CashFilters) (data : TransactionInput) (id : String)
    (faults : Faults) (now : Nat) (nowDate : CFDate) (freshId : String)
    (hs : u.accountType = "simples") :
    CashFlowService.getAll u filters db
      = (.error "Conta Simples não tem acesso a dados financeiros", db)
  ∧ CashFlowService.getById u id db
      = (.error "Conta Simples não tem acesso a dados financeiros", db)
  ∧ CashFlowService.create u data faults now freshId db
      = (.error "Conta Simples não tem acesso a dados financeiros", db)
  ∧ CashFlowService.update u id data faults now db
      = (.error "Conta Simples não tem acesso a dados financeiros", db)
  ∧ CashFlowService.delete u id faults now db
      = (.error "Conta Simples não tem acesso a dados financeiros", db)
  ∧ CashFlowService.getFinancialStats u nowDate db
      = (.error "Conta Simples não tem acesso a dados financeiros", db)
  ∧ CashFlowService.exportCSV u filters db
      = (.error "Conta Simples não tem acesso a dados financeiros", db) := by
  have hr := requirePermission_cash_flow_simples u "read" hs
  have hw := requirePermission_cash_flow_simples u "write" hs
  refine ⟨?_, ?_, ?_, ?_, ?_, ?_, ?_⟩
  · simp only [CashFlowService.getAll, hr]
  · simp only [CashFlowService.getById, hr]
  · simp only [CashFlowService.create, hw]
  · simp only [CashFlowService.update, hw]
  · simp only [CashFlowService.delete, hw]
  · simp only [CashFlowService.getFinancialStats, hr]
  · simp only [CashFlowService.exportCSV, hr]

/-- An empty tenant state. -/
def emptyTenantDb : TenantDb :=
  { clients := [], projects := [], cash_flow := [], publications := [],
    audit_log := [], notifications := [] }

/-- Filters with no clause. -/
def emptyCashFilters : CashFilters :=
  { search := none, type := none, category := none, status := none,
    date_start := none, date_end := none }

/-- A request body with every field absent. -/
def emptyTransactionInput : TransactionInput :=
  { type := none, amount := none, category_id := none, description := none,
    date := none, payment_method := none, status := none, tags := none,
    project_id := none, client_id := none, is_recurring := none,
    recurring_frequency := none, notes := none }

/-- A concrete simples-account user. -/
def sampleSimples : AuthenticatedUser :=
  { id := "uS", tenantId := "t1", email := "s@x.com", name := "S",
    accountType := "simples" }

/-- A concrete composta-account user. -/
def sampleComposta : AuthenticatedUser :=
  { id := "uC", tenantId := "t1", email := "c@x.com", name := "C",
    accountType := "composta" }

/-- Concrete request data for the router. -/
def sampleArgs : RouteArgs :=
  { targetId := "tx1", filters := emptyCashFilters,
    input := emptyTransactionInput, faults := noFaults, now := 0,
    nowDate := { month := 24300, day := 15 }, freshId := "f1" }

/-- Witness for C5: a concrete simples user is rejected by getAll with the
fixed error and an unchanged state. -/
theorem c5_simples_no_financial_access_witness :
    CashFlowService.getAll sampleSimples emptyCashFilters emptyTenantDb
      = (.error "Conta Simples não tem acesso a dados financeiros",
         emptyTenantDb) :=
  (c5_simples_no_financial_access sampleSimples emptyTenantDb
    emptyCashFilters emptyTransactionInput "tx1" noFaults 0
    { month := 24300, day := 15 } "f1" rfl).1

/-- Counterexample to Claim C4 as stated: GET /stats carries no
requireAccountType middleware, so a simples user is not answered 403 and
the CashFlowService operation is invoked (it then throws inside
requirePermission and the handler answers 500). -/
theorem c4_counterexample :
    cashflowRouter .statsR sampleSimples sampleArgs emptyTenantDb
      = ({ status := 500,
           body := .errJson "Erro ao buscar estatísticas financeiras" },
         emptyTenantDb, true)
  ∧ (cashflowRouter .statsR sampleSimples sampleArgs emptyTenantDb).1.status ≠ 403
  ∧ (cashflowRouter .statsR sampleSimples sampleArgs emptyTenantDb).2.2 ≠ false := by
  refine ⟨?_, ?_, ?_⟩ <;> decide

/-- Claim C4 (amended): for every cash-flow endpoint except GET /stats, a
user whose accountType is neither composta nor gerencial receives 403
"Acesso negado" and no CashFlowService operation is invoked; GET /stats
always invokes the service, and for a simples user it answers 500 from the
handler catch clause. -/
theorem c4_account_type_gate (u : AuthenticatedUser) (args : RouteArgs)
    (db : TenantDb)
    (hc : u.accountType ≠ "composta") (hg : u.accountType ≠ "gerencial") :
    (∀ ep : CashEndpoint, ep ≠ .statsR →
      cashflowRouter ep u args db
        = ({ status := 403, body := .errJson "Acesso negado" }, db, false))
  ∧ (cashflowRouter .statsR u args db).2.2 = true
  ∧ (u.accountType = "simples" →
      cashflowRouter .statsR u args db
        = ({ status := 500,
             body := .errJson "Erro ao buscar estatísticas financeiras" },
           db, true)) := by
  have hgate : requireAccountType ["composta", "gerencial"] u
      = some { status := 403, body := .errJson "Acesso negado" } := by
    unfold requireAccountType
    have hcont : (["composta", "gerencial"].contains u.accountType) = false := by
      simp [hc, hg]
    rw [hcont]
    rfl
  refine ⟨?_, ?_, ?_⟩
  · intro ep hep
    cases ep
    case statsR => exact absurd rfl hep
    all_goals simp only [cashflowRouter, hgate]
  · rcases hres : CashFlowService.getFinancialStats u args.nowDate db with ⟨res, db2⟩
    cases res <;> simp [cashflowRouter, hres]
  · intro hs
    have h1 := requirePermission_cash_flow_simples u "read" hs
    simp only [cashflowRouter, CashFlowService.getFinancialStats, h1]

/-- Witness for C4 (amended): the concrete simples user gets 403 on GET /
and the service is not invoked. -/
theorem c4_account_type_gate_witness :
    cashflowRouter .getAllR sampleSimples sampleArgs emptyTenantDb
      = ({ status := 403, body := .errJson "Acesso negado" },
         emptyTenantDb, false) :=
  (c4_account_type_gate sampleSimples sampleArgs emptyTenantDb
    (by decide) (by decide)).1 .getAllR (by decide)

/-- Counterexample to Claim C7 as stated: the GET /:id handler catch clause
answers 404, not 500, when the service throws (here: unknown id). -/
theorem c7_counterexample :
    (cashflowRouter .getByIdR sampleComposta sampleArgs emptyTenantDb).1
      = { status := 404, body := .errJson "Transação não encontrada" }
  ∧ (cashflowRouter .getByIdR sampleComposta sampleArgs emptyTenantDb).1.status
      ≠ 500 := by
  refine ⟨?_, ?_⟩ <;> decide

/-- Claim C7 (amended): every cash-flow route handler catches a throwing
service operation and responds with a JSON error body and the fixed error
status of its catch clause: 500 for GET /, GET /stats and GET /export, 404
for GET /:id, and 400 for POST, PUT and DELETE; no exception propagates
(the router model is a total function). -/
theorem c7_handler_catches (u : AuthenticatedUser) (args : RouteArgs)
    (db : TenantDb)
    (hacct : (["composta", "gerencial"].contains u.accountType) = true) :
    (∀ e db2, CashFlowService.getAll u args.filters db = (.error e, db2) →
      cashflowRouter .getAllR u args db
        = ({ status := 500, body := .errJson "Erro ao buscar transações" },
           db2, true))
  ∧ (∀ e db2,
      CashFlowService.getFinancialStats u args.nowDate db = (.error e, db2) →
      cashflowRouter .statsR u args db
        = ({ status := 500,
             body := .errJson "Erro ao buscar estatísticas financeiras" },
           db2, true))
  ∧ (∀ e db2, CashFlowService.exportCSV u args.filters db = (.error e, db2) →
      cashflowRouter .exportR u args db
        = ({ status := 500, body := .errJson "Erro ao exportar relatório" },
           db2, true))
  ∧ (∀ e db2, CashFlowService.getById u args.targetId db = (.error e, db2) →
      cashflowRouter .getByIdR u args db
        = ({ status := 404, body := .errJson "Transação não encontrada" },
           db2, true))
  ∧ (∀ e db2,
      CashFlowService.create u args.input args.faults args.now args.freshId db
        = (.error e, db2) →
      cashflowRouter .createR u args db
        = ({ status := 400, body := .errJson "Erro ao criar transação" },
           db2, true))
  ∧ (∀ e db2,
      CashFlowService.update u args.targetId args.input args.faults args.now db
        = (.error e, db2) →
      cashflowRouter .updateR u args db
        = ({ status := 400, body := .errJson "Erro ao atualizar transação" },
           db2, true))
  ∧ (∀ e db2,
      CashFlowService.delete u args.targetId args.faults args.now db
        = (.error e, db2) →
      cashflowRouter .deleteR u args db
        = ({ status := 400, body := .errJson "Erro ao excluir transação" },
           db2, true)) := by
  have hgate : requireAccountType ["composta", "gerencial"] u = none := by
    unfold requireAccountType
    rw [hacct]
    rfl
  refine ⟨?_, ?_, ?_, ?_, ?_, ?_, ?_⟩ <;>
    (intro e db2 h; simp only [cashflowRouter, hgate, h])

/-- Witness for C7 (amended): concrete composta user, unknown transaction
id, GET /:id answers 404 with the JSON error body. -/
theorem c7_handler_catches_witness :
    cashflowRouter .getByIdR sampleComposta sampleArgs emptyTenantDb
      = ({ status := 404, body := .errJson "Transação não encontrada" },
         emptyTenantDb, true) :=
  (c7_handler_catches sampleComposta sampleArgs emptyTenantDb
    (by decide)).2.2.2.1 "Transação não encontrada" emptyTenantDb rfl

/-- Claim C9: auditLog and createNotification swallow an INSERT failure
and return normally, and for the create, update and delete operations a
failing audit or notification INSERT changes neither the operation result
nor its effect on the cash_flow table. -/
theorem c9_audit_notification_best_effort (u : AuthenticatedUser)
    (db : TenantDb) (data : TransactionInput) (id : String) (faults : Faults)
    (now : Nat) (freshId : String) (tn op rid : String) (od nd : Option String)
    (nt ti me ca : String) (et ei ad ui : Option String) :
    BaseService.auditLog u true tn op rid od nd now db = db
  ∧ BaseService.createNotification u true nt ti me ca et ei ad ui now db = db
  ∧ (CashFlowService.create u data faults now freshId db).1
      = (CashFlowService.create u data noFaults now freshId db).1
  ∧ (CashFlowService.create u data faults now freshId db).2.cash_flow
      = (CashFlowService.create u data noFaults now freshId db).2.cash_flow
  ∧ (CashFlowService.update u id data faults now db).1
      = (CashFlowService.update u id data noFaults now db).1
  ∧ (CashFlowService.update u id data faults now db).2.cash_flow
      = (CashFlowService.update u id data noFaults now db).2.cash_flow
  ∧ (CashFlowService.delete u id faults now db).1
      = (CashFlowService.delete u id noFaults now db).1
  ∧ (CashFlowService.delete u id faults now db).2.cash_flow
      = (CashFlowService.delete u id noFaults now db).2.cash_flow := by
  refine ⟨rfl, rfl, ?_, ?_, ?_, ?_, ?_, ?_⟩
  · cases hperm : BaseService.requirePermission u "write" "cash_flow" with
    | error e => simp only [CashFlowService.create, hperm]
    | ok v => simp only [CashFlowService.create, hperm]
  · cases hperm : BaseService.requirePermission u "write" "cash_flow" with
    | error e => simp only [CashFlowService.create, hperm]
    | ok v =>
        simp only [CashFlowService.create, hperm,
          BaseService.createNotification_cash_flow,
          BaseService.auditLog_cash_flow]
  · cases hperm : BaseService.requirePermission u "write" "cash_flow" with
    | error e => simp only [CashFlowService.update, hperm]
    | ok v =>
        simp only [CashFlowService.update, hperm]
        rcases hg : CashFlowService.getById u id db with ⟨res, db0⟩
        cases res <;> simp only [hg]
  · cases hperm : BaseService.requirePermission u "write" "cash_flow" with
    | error e => simp only [CashFlowService.update, hperm]
    | ok v =>
        simp only [CashFlowService.update, hperm]
        rcases hg : CashFlowService.getById u id db with ⟨res, db0⟩
        cases res <;>
          simp only [hg, BaseService.auditLog_cash_flow]
  · cases hperm : BaseService.requirePermission u "write" "cash_flow" with
    | error e => simp only [CashFlowService.delete, hperm]
    | ok v =>
        simp only [CashFlowService.delete, hperm]
        rcases hg : CashFlowService.getById u id db with ⟨res, db0⟩
        cases res <;> simp only [hg]
  · cases hperm : BaseService.requirePermission u "write" "cash_flow" with
    | error e => simp only [CashFlowService.delete, hperm]
    | ok v =>
        simp only [CashFlowService.delete, hperm]
        rcases hg : CashFlowService.getById u id db with ⟨res, db0⟩
        cases res <;>
          simp only [hg, BaseService.auditLog_cash_flow]
